import Mathlib

/-!
Shallow embedding of the Cycle & Symptom Prediction Engine
(`utils/cycle_calculator.py`, `utils/symptom_predictor.py`, with the record
shapes of `schemas/cycle.py` and `schemas/symptoms.py`), together with
theorems settling the specification claims about it.

Modelling conventions:
* calendar dates are integers (day numbers); `date - date` is the day gap and
  `date + n` is `timedelta(days=n)` addition; `civilDate` gives concrete
  Gregorian dates their day number;
* Python `float` arithmetic is modelled exactly over `ℚ` (every constant in
  the source is a short decimal, and every comparison the claims touch is
  decided identically by the double and the rational);
* `statistics.mean` is `sum / length` over `ℚ`;
* Python `sorted` (a stable sort by a key) is modelled by the stable
  `List.insertionSort` on the key order;
* iteration over a CPython `set` has no specified order; it is modelled by
  first-occurrence order, and no theorem below depends on that choice;
* `date.today()` is an explicit `today` parameter, the one external input.
-/

namespace CycleApp

/-- Python `int()` applied to a float: truncation toward zero. -/
def pyInt (q : ℚ) : ℤ := if 0 ≤ q then ⌊q⌋ else ⌈q⌉

/-- Model of `statistics.mean` over a list of integers, as an exact rational. -/
def intMean (l : List ℤ) : ℚ := (l.map (fun x : ℤ => (x : ℚ))).sum / l.length

/-- Model of `statistics.mean` over a list of naturals, as an exact rational. -/
def natMean (l : List ℕ) : ℚ := (l.map (fun x : ℕ => (x : ℚ))).sum / l.length

/-- Day number of a proleptic Gregorian date (days since 1970-01-01, the
standard civil-from-days construction); used only to give the concrete
calendar dates appearing in the claims a meaning as integer day numbers. -/
def civilDate (y m d : ℤ) : ℤ :=
  let y2 := if m ≤ 2 then y - 1 else y
  let era := (if 0 ≤ y2 then y2 else y2 - 399) / 400
  let yoe := y2 - era * 400
  let mp := (m + 9) % 12
  let doy := (153 * mp + 2) / 5 + d - 1
  let doe := yoe * 365 + yoe / 4 - yoe / 100 + doy
  era * 146097 + doe - 719468

/-- One cycle-tracking entry (`CycleEntry` of `schemas/cycle.py`), restricted
to the fields the calculator reads: `date`, `is_period_day` and `moods`. -/
structure CycleEntry where
  date : ℤ
  is_period_day : Bool := false
  moods : List String := []
deriving DecidableEq

/-- Model of `CycleStats` of `schemas/cycle.py`; every field is optional with default
`None` except `total_cycles_tracked` (default 0). -/
structure CycleStats where
  average_cycle_length : Option ℚ := none
  average_period_length : Option ℚ := none
  last_period_start : Option ℤ := none
  next_predicted_period : Option ℤ := none
  next_predicted_ovulation : Option ℤ := none
  current_cycle_day : Option ℤ := none
  current_phase : Option String := none
  total_cycles_tracked : ℕ := 0
deriving DecidableEq

/-- Model of `HormoneLevel` of `schemas/cycle.py`. -/
structure HormoneLevel where
  estrogen_level : String
  progesterone_level : String
  testosterone_level : String
deriving DecidableEq

/-- Model of `CyclePrediction` of `schemas/cycle.py`. -/
structure CyclePrediction where
  date : ℤ
  cycle_day : ℤ
  phase : String
  predicted_mood : List String
  predicted_symptoms : List String
  hormone_levels : HormoneLevel
  fertility_status : String
deriving DecidableEq

/-- Model of Python sorted with the date key: a stable sort by date. -/
def sortEntriesByDate (entries : List CycleEntry) : List CycleEntry :=
  entries.insertionSort (fun a b => a.date ≤ b.date)

/-- The walk inside `_get_period_starts`: state `in_period` starts `False`;
an entry with `is_period_day` set while not in a period records its date and
enters the period; an entry without it leaves the period. -/
def periodStartsLoop : Bool → List CycleEntry → List ℤ
  | _, [] => []
  | in_period, e :: rest =>
    if e.is_period_day then
      if in_period then periodStartsLoop true rest
      else e.date :: periodStartsLoop true rest
    else periodStartsLoop false rest

/-- Model of `_get_period_starts`: sort by date, then walk. -/
def getPeriodStarts (entries : List CycleEntry) : List ℤ :=
  periodStartsLoop false (sortEntriesByDate entries)

/-- The loop inside `_calculate_period_length`: walks the date-sorted entries
holding `current_date` and the running count `period_days`; `break` returns
the count accumulated so far. -/
def periodLengthLoop (start_date : ℤ) : ℤ → ℕ → List CycleEntry → ℕ
  | _, period_days, [] => period_days
  | current_date, period_days, e :: rest =>
    if start_date ≤ e.date ∧ e.is_period_day then
      if e.date = current_date then
        periodLengthLoop start_date (current_date + 1) (period_days + 1) rest
      else period_days
    else if start_date < e.date then period_days
    else periodLengthLoop start_date current_date period_days rest

/-- Model of `_calculate_period_length`: `None` when no period day was counted. -/
def calculatePeriodLength (entries : List CycleEntry) (start_date : ℤ) :
    Option ℕ :=
  let period_days := periodLengthLoop start_date start_date 0 (sortEntriesByDate entries)
  if 0 < period_days then some period_days else none

/-- Model of `_get_current_phase`: the four-rule phase classifier. `cycle_day` is an
`int`, `cycle_length` a `float` (here `ℚ`); the mixed comparisons coerce. -/
def getCurrentPhase (cycle_day : ℤ) (cycle_length : ℚ) : String :=
  if cycle_day ≤ 5 then ("menstrual")
  else if (cycle_day : ℚ) ≤ cycle_length - 14 then ("follicular")
  else if |(cycle_day : ℚ) - (cycle_length - 14)| ≤ 2 then ("ovulation")
  else ("luteal")

/-- The gap list built by `for i in range(1, len(period_starts))`:
differences of consecutive period starts, in order. -/
def cycleGaps : List ℤ → List ℤ
  | [] => []
  | [_] => []
  | a :: b :: rest => (b - a) :: cycleGaps (b :: rest)

/-- Model of `calculate_cycle_stats`. `today` stands for `date.today()`. -/
def calculateCycleStats (today : ℤ) (entries : List CycleEntry) : CycleStats :=
  let period_starts := getPeriodStarts entries
  if period_starts.length < 2 then
    { total_cycles_tracked := period_starts.length
      last_period_start := period_starts.head? }
  else
    let cycle_lengths := (cycleGaps period_starts).filter
      (fun g => decide (21 ≤ g ∧ g ≤ 35))
    let period_lengths := period_starts.filterMap
      (fun s => calculatePeriodLength entries s)
    let avg_cycle_length : ℚ :=
      if cycle_lengths ≠ [] then intMean cycle_lengths else 28
    let avg_period_length : ℚ :=
      if period_lengths ≠ [] then natMean period_lengths else 5
    match period_starts.getLast? with
    | none =>
      -- unreachable when two starts exist; mirrors `if last_period:` guarding
      -- the prediction fields
      { average_cycle_length := some avg_cycle_length
        average_period_length := some avg_period_length
        last_period_start := none
        total_cycles_tracked := period_starts.length }
    | some last_period =>
      { average_cycle_length := some avg_cycle_length
        average_period_length := some avg_period_length
        last_period_start := some last_period
        next_predicted_period := some (last_period + pyInt avg_cycle_length)
        next_predicted_ovulation :=
          some (last_period + pyInt (avg_cycle_length - 14))
        current_cycle_day := some (today - last_period + 1)
        current_phase :=
          some (getCurrentPhase (today - last_period + 1) avg_cycle_length)
        total_cycles_tracked := period_starts.length }

/-- Model of `_predict_hormone_levels`. -/
def predictHormoneLevels (cycle_day : ℤ) (cycle_length : ℚ) : HormoneLevel :=
  let phase := getCurrentPhase cycle_day cycle_length
  if phase = "menstrual" then
    { estrogen_level := "low", progesterone_level := "low"
      testosterone_level := "medium" }
  else if phase = "follicular" then
    { estrogen_level := if cycle_day < 10 then ("medium") else ("high")
      progesterone_level := "low", testosterone_level := "medium" }
  else if phase = "ovulation" then
    { estrogen_level := "high", progesterone_level := "low"
      testosterone_level := "high" }
  else
    { estrogen_level := "medium", progesterone_level := "high"
      testosterone_level := "low" }

/-- Helper for `dedupKeepFirst`: drop elements already seen. -/
def dedupKeepFirstAux (seen : List String) : List String → List String
  | [] => []
  | s :: rest =>
    if s ∈ seen then dedupKeepFirstAux seen rest
    else s :: dedupKeepFirstAux (s :: seen) rest

/-- First-occurrence deduplication; the model of iterating a CPython `set`
built from a list (whose real order is implementation-defined). -/
def dedupKeepFirst (l : List String) : List String := dedupKeepFirstAux [] l

/-- Model of `_predict_mood`: fixed phase table, extended by historical moods occurring
in more than 10 percent of entries, deduplicated and truncated to 3. -/
def predictMood (phase : String) (entries : List CycleEntry) : List String :=
  let phase_moods : List String :=
    if phase = "menstrual" then ["tired", "emotional", "irritable"]
    else if phase = "follicular" then ["energetic", "happy", "calm"]
    else if phase = "ovulation" then ["happy", "energetic", "confident"]
    else if phase = "luteal" then ["anxious", "irritable", "sad"]
    else []
  let historical_moods := entries.foldl (fun acc e => acc ++ e.moods) []
  let predicted :=
    if historical_moods ≠ [] then
      phase_moods ++ (dedupKeepFirst historical_moods).filter
        (fun m => decide ((entries.length : ℚ) * (1/10) < historical_moods.count m))
    else phase_moods
  (dedupKeepFirst predicted).take 3

/-- Model of `_predict_symptoms`: fixed phase table, the entries are not consulted. -/
def predictSymptoms (phase : String) (entries : List CycleEntry) : List String :=
  let _ := entries
  if phase = "menstrual" then ["cramps", "bloating", "back_pain"]
  else if phase = "follicular" then []
  else if phase = "ovulation" then ["breast_tenderness"]
  else if phase = "luteal" then ["bloating", "headache", "food_cravings", "acne"]
  else []

/-- Model of `_predict_fertility`. -/
def predictFertility (cycle_day : ℤ) (cycle_length : ℚ) : String :=
  let ovulation_day := cycle_length - 14
  if |(cycle_day : ℚ) - ovulation_day| ≤ 1 then ("high")
  else if |(cycle_day : ℚ) - ovulation_day| ≤ 3 then ("medium")
  else ("low")

/-- Model of `generate_predictions`: stats first; empty when no last period start;
otherwise one prediction per day offset, with the wrapped cycle day. -/
def generatePredictions (today : ℤ) (entries : List CycleEntry)
    (days_ahead : ℕ) : List CyclePrediction :=
  let stats := calculateCycleStats today entries
  match stats.last_period_start with
  | none => []
  | some last_period_start =>
    let cycle_length : ℚ := stats.average_cycle_length.getD 28
    (List.range days_ahead).map (fun i : ℕ =>
      let prediction_date := today + (i : ℤ)
      let days_since_last_period := prediction_date - last_period_start
      let cycle_day := days_since_last_period % pyInt cycle_length + 1
      let phase := getCurrentPhase cycle_day cycle_length
      { date := prediction_date
        cycle_day := cycle_day
        phase := phase
        predicted_mood := predictMood phase entries
        predicted_symptoms := predictSymptoms phase entries
        hormone_levels := predictHormoneLevels cycle_day cycle_length
        fertility_status := predictFertility cycle_day cycle_length })

/-! Specification-side view of period starts: maximal consecutive runs. -/

/-- Maximal consecutive runs of entries with equal `is_period_day`, built by
structural recursion from the right: an entry joins the following run when it
carries the same flag, and opens a new run otherwise. -/
def splitRunsR : List CycleEntry → List (List CycleEntry)
  | [] => []
  | e :: rest =>
    match splitRunsR rest with
    | [] => [[e]]
    | [] :: rs => [[e]] ++ rs
    | (f :: r) :: rs =>
      if e.is_period_day = f.is_period_day then (e :: f :: r) :: rs
      else [e] :: (f :: r) :: rs

/-- A nonempty run consisting only of period-day entries. -/
def isPeriodRun (r : List CycleEntry) : Bool :=
  !r.isEmpty && r.all (·.is_period_day)

/-- The first dates of the maximal consecutive runs of period-day entries:
the specification of `_get_period_starts` on an already sorted list. -/
def runFirstDates (l : List CycleEntry) : List ℤ :=
  ((splitRunsR l).filter isPeriodRun).filterMap (fun r => r.head?.map (·.date))

/-! The symptom predictor (`utils/symptom_predictor.py`) and its records
(`schemas/symptoms.py`). -/

/-- Model of `SymptomResponse` of `schemas/symptoms.py`, restricted to the fields the
predictor reads. Optional string enums are `Option String` (`None` ↦ `none`). -/
structure SymptomEntry where
  date : ℤ
  mood : Option String := none
  cramps : Option String := none
  headache : Bool := false
  nausea : Bool := false
  fatigue : Bool := false
  flow_level : Option String := none
  sleep_quality : Option String := none
deriving DecidableEq

/-- Model of `PredictedSymptom` of `schemas/symptoms.py`. -/
structure PredictedSymptom where
  symptom : String
  probability : ℚ
  confidence : String
deriving DecidableEq

/-- Model of `Suggestion` of `schemas/symptoms.py`. -/
structure Suggestion where
  category : String
  title : String
  description : String
  priority : String
deriving DecidableEq

/-- Model of `PredictionResponse` of `schemas/symptoms.py`. -/
structure PredictionResponse where
  date : ℤ
  predicted_symptoms : List PredictedSymptom
  confidence_score : ℚ
  based_on_days : ℕ
deriving DecidableEq

/-- Model of `SuggestionResponse` of `schemas/symptoms.py`. -/
structure SuggestionResponse where
  suggestions : List Suggestion
  based_on_symptoms : List String
  date : ℤ
deriving DecidableEq

/-- Model of `statistics.mean` over rationals. -/
def ratMean (l : List ℚ) : ℚ := l.sum / l.length

/-- Model of `sorted(user_symptoms, key=lambda x: x.date)`: stable sort by date. -/
def sortSymptomsByDate (l : List SymptomEntry) : List SymptomEntry :=
  l.insertionSort (fun a b => a.date ≤ b.date)

/-- Model of `sorted_symptoms[-7:]`: the at-most-7 most recent date-sorted entries. -/
def recentSymptoms (l : List SymptomEntry) : List SymptomEntry :=
  let s := sortSymptomsByDate l
  s.drop (s.length - 7)

/-- Python truthiness of `symptom.cramps and symptom.cramps != "none"`:
present, not the empty string, and not the literal `"none"`. -/
def crampsPresent (s : SymptomEntry) : Bool :=
  match s.cramps with
  | none => false
  | some c => !(c = "") && !(c = "none")

/-- One `defaultdict` increment: bump the count of key `k`, inserting it at
the end on first occurrence (CPython dict insertion order). -/
def bumpCount : List (String × ℕ) → String → List (String × ℕ)
  | [], k => [(k, 1)]
  | (k2, n) :: rest, k =>
    if k2 = k then (k2, n + 1) :: rest else (k2, n) :: bumpCount rest k

/-- The body of the tally loop of `_analyze_symptom_sequences`: per entry the
four checks run in source order headache, nausea, fatigue, cramps. -/
def countStep (acc : List (String × ℕ)) (s : SymptomEntry) : List (String × ℕ) :=
  let a1 := if s.headache then bumpCount acc ("headache") else acc
  let a2 := if s.nausea then bumpCount a1 ("nausea") else a1
  let a3 := if s.fatigue then bumpCount a2 ("fatigue") else a2
  if crampsPresent s then bumpCount a3 ("cramps") else a3

/-- The tally of `_analyze_symptom_sequences`. -/
def symptomCounts (symptoms : List SymptomEntry) : List (String × ℕ) :=
  symptoms.foldl countStep []

/-- Model of `_analyze_symptom_sequences`: occurrence counts divided by the number of
entries, in tally insertion order. -/
def analyzeSymptomSequences (symptoms : List SymptomEntry) :
    List (String × ℚ) :=
  (symptomCounts symptoms).map (fun p => (p.1, (p.2 : ℚ) / symptoms.length))

/-- Model of `_predict_by_patterns`: nothing under 3 entries; otherwise every tallied
symptom with rate above 0.6, confidence `high` above 0.8 else `medium`. -/
def predictByPatterns (recent : List SymptomEntry) : List PredictedSymptom :=
  if recent.length < 3 then []
  else
    (analyzeSymptomSequences recent).filterMap (fun p =>
      if (3/5 : ℚ) < p.2 then
        some { symptom := p.1, probability := p.2
               confidence := if (4/5 : ℚ) < p.2 then ("high") else ("medium") }
      else none)

/-- Model of `_find_last_flow_date`: scan backward for flow `light`, `medium`, `heavy`. -/
def findLastFlowDate (symptoms : List SymptomEntry) : Option ℤ :=
  (symptoms.reverse.find? (fun s =>
    match s.flow_level with
    | none => false
    | some f => f = "light" || f = "medium" || f = "heavy")).map (·.date)

/-- Model of `_get_cycle_phase_predictions`: fixed predictions for early-cycle days 1-5
and late-cycle days 15-28. -/
def getCyclePhasePredictions (cycle_day : ℤ) : List PredictedSymptom :=
  if cycle_day ∈ ([1, 2, 3, 4, 5] : List ℤ) then
    [{ symptom := "cramps", probability := 7/10, confidence := "medium" },
     { symptom := "fatigue", probability := 3/5, confidence := "medium" }]
  else if cycle_day ∈
      ([15, 16, 17, 18, 19, 20, 21, 22, 23, 24, 25, 26, 27, 28] : List ℤ) then
    [{ symptom := "mood_changes", probability := 3/5, confidence := "medium" },
     { symptom := "headache", probability := 1/2, confidence := "low" }]
  else []

/-- Model of `_predict_by_cycle_phase`. -/
def predictByCyclePhase (recent : List SymptomEntry) (target_date : ℤ) :
    List PredictedSymptom :=
  if recent = [] then []
  else
    match findLastFlowDate recent with
    | none => []
    | some last_flow_date =>
      getCyclePhasePredictions (target_date - last_flow_date + 1)

/-- Model of `_get_sequence_predictions`: rules on yesterday only. -/
def getSequencePredictions (yesterday : SymptomEntry) : List PredictedSymptom :=
  (if yesterday.cramps = some ("strong") then
    [{ symptom := "cramps", probability := 3/5, confidence := "medium" }]
  else []) ++
  (if yesterday.sleep_quality = some ("poor") then
    [{ symptom := "fatigue", probability := 4/5, confidence := "high" }]
  else [])

/-- Model of `_predict_by_sequence`: nothing under 2 entries; else rules on the
chronologically last entry. -/
def predictBySequence (recent : List SymptomEntry) : List PredictedSymptom :=
  if recent.length < 2 then []
  else
    match recent.getLast? with
    | none => []
    | some yesterday => getSequencePredictions yesterday

/-- The candidate predictions of `predict_tomorrow_symptoms` before merging:
pattern, cycle-phase and sequence heuristics, in that order. -/
def candidatePredictions (recent : List SymptomEntry) (target_date : ℤ) :
    List PredictedSymptom :=
  predictByPatterns recent ++ predictByCyclePhase recent target_date ++
    predictBySequence recent

/-- One `defaultdict(list)` append for grouping predictions by symptom. -/
def addToGroup : List (String × List PredictedSymptom) → PredictedSymptom →
    List (String × List PredictedSymptom)
  | [], p => [(p.symptom, [p])]
  | (k, ps) :: rest, p =>
    if k = p.symptom then (k, ps ++ [p]) :: rest
    else (k, ps) :: addToGroup rest p

/-- Model of `_merge_predictions`: group by symptom (insertion order), average the
probabilities, re-derive confidence, stable-sort descending by probability. -/
def mergePredictions (preds : List PredictedSymptom) : List PredictedSymptom :=
  let groups := preds.foldl addToGroup []
  let merged := groups.map (fun g =>
    let avg_prob := ratMean (g.2.map (·.probability))
    { symptom := g.1, probability := avg_prob
      confidence :=
        if (7/10 : ℚ) < avg_prob then ("high")
        else if (2/5 : ℚ) < avg_prob then ("medium")
        else ("low") })
  merged.insertionSort (fun a b => b.probability ≤ a.probability)

/-- Model of `_calculate_confidence`. -/
def calculateConfidence (recent : List SymptomEntry)
    (predictions : List PredictedSymptom) : ℚ :=
  if predictions = [] then 0
  else
    (min ((recent.length : ℚ) / 7) 1 +
      ratMean (predictions.map (·.probability))) / 2

/-- Model of `predict_tomorrow_symptoms`. -/
def predictTomorrowSymptoms (user_symptoms : List SymptomEntry)
    (target_date : ℤ) : PredictionResponse :=
  if user_symptoms = [] then
    { date := target_date, predicted_symptoms := []
      confidence_score := 0, based_on_days := 0 }
  else
    let recent_symptoms := recentSymptoms user_symptoms
    let unique_predictions :=
      mergePredictions (candidatePredictions recent_symptoms target_date)
    { date := target_date
      predicted_symptoms := unique_predictions
      confidence_score := calculateConfidence recent_symptoms unique_predictions
      based_on_days := recent_symptoms.length }

/-! The suggestion engine of `utils/symptom_predictor.py`. -/

/-- Model of `_load_suggestion_database`: the static suggestion catalog. -/
def suggestionDatabase : List (String × List Suggestion) :=
  [("headache",
    [{ category := "remedy", title := "Stay Hydrated"
       description := "Drink plenty of water throughout the day. Dehydration is a common headache trigger."
       priority := "high" },
     { category := "lifestyle", title := "Rest in Dark Room"
       description := "Find a quiet, dark room to rest. Reduce screen time and bright lights."
       priority := "high" },
     { category := "remedy", title := "Cold/Warm Compress"
       description := "Apply a cold compress to your forehead or a warm compress to your neck and shoulders."
       priority := "medium" },
     { category := "medical", title := "Over-the-Counter Pain Relief"
       description := "Consider ibuprofen or acetaminophen as directed. Consult healthcare provider if frequent."
       priority := "medium" }]),
   ("cramps",
    [{ category := "remedy", title := "Heat Therapy"
       description := "Use a heating pad or hot water bottle on your lower abdomen or back."
       priority := "high" },
     { category := "lifestyle", title := "Gentle Exercise"
       description := "Try light walking, yoga, or stretching to help relieve cramps."
       priority := "high" },
     { category := "remedy", title := "Warm Bath"
       description := "Take a warm bath with Epsom salts to relax muscles and reduce pain."
       priority := "medium" },
     { category := "medical", title := "Anti-inflammatory Medication"
       description := "Consider ibuprofen or naproxen to reduce inflammation and pain."
       priority := "medium" }]),
   ("nausea",
    [{ category := "remedy", title := "Ginger Tea"
       description := "Drink ginger tea or chew on fresh ginger to help settle your stomach."
       priority := "high" },
     { category := "lifestyle", title := "Small, Frequent Meals"
       description := "Eat small, bland meals throughout the day. Avoid greasy or spicy foods."
       priority := "high" },
     { category := "remedy", title := "Peppermint"
       description := "Try peppermint tea or aromatherapy to help reduce nausea."
       priority := "medium" }]),
   ("fatigue",
    [{ category := "lifestyle", title := "Prioritize Sleep"
       description := "Aim for 7-9 hours of quality sleep. Maintain a consistent sleep schedule."
       priority := "high" },
     { category := "lifestyle", title := "Iron-Rich Foods"
       description := "Include iron-rich foods like spinach, lean meats, and legumes in your diet."
       priority := "high" },
     { category := "lifestyle", title := "Light Exercise"
       description := "Gentle exercise can boost energy levels. Try a short walk or light stretching."
       priority := "medium" }]),
   ("mood",
    [{ category := "lifestyle", title := "Mindfulness Practice"
       description := "Try meditation, deep breathing, or mindfulness exercises for 10-15 minutes."
       priority := "high" },
     { category := "lifestyle", title := "Social Connection"
       description := "Reach out to friends or family. Social support can improve mood."
       priority := "medium" },
     { category := "lifestyle", title := "Sunlight Exposure"
       description := "Spend time outdoors or near a bright window to boost mood naturally."
       priority := "medium" }]),
   ("sleep",
    [{ category := "lifestyle", title := "Sleep Hygiene"
       description := "Create a relaxing bedtime routine. Avoid screens 1 hour before bed."
       priority := "high" },
     { category := "remedy", title := "Herbal Tea"
       description := "Try chamomile or valerian root tea 30 minutes before bedtime."
       priority := "medium" },
     { category := "lifestyle", title := "Cool, Dark Environment"
       description := "Keep your bedroom cool (65-68°F) and as dark as possible."
       priority := "medium" }])]

/-- Direct catalog access `self.suggestion_database[key]`. -/
def dbGet (k : String) : List Suggestion :=
  (suggestionDatabase.lookup k).getD []

/-- Model of `_get_current_symptom_suggestions`: catalog entries and contributing
factors for each currently-true condition, in source order. -/
def getCurrentSymptomSuggestions (symptoms : SymptomEntry) :
    List Suggestion × List String :=
  ((if symptoms.headache then dbGet ("headache") else []) ++
   (if symptoms.cramps = some ("moderate") ∨ symptoms.cramps = some ("strong")
    then dbGet ("cramps") else []) ++
   (if symptoms.nausea then dbGet ("nausea") else []) ++
   (if symptoms.fatigue then dbGet ("fatigue") else []) ++
   (if symptoms.mood = some ("sad") ∨ symptoms.mood = some ("irritated") ∨
       symptoms.mood = some ("anxious") ∨ symptoms.mood = some ("depressed")
    then dbGet ("mood") else []) ++
   (if symptoms.sleep_quality = some ("poor") ∨
       symptoms.sleep_quality = some ("fair")
    then dbGet ("sleep") else []),
   (if symptoms.headache then ["headache"] else []) ++
   (if symptoms.cramps = some ("moderate") ∨ symptoms.cramps = some ("strong")
    then ["cramps"] else []) ++
   (if symptoms.nausea then ["nausea"] else []) ++
   (if symptoms.fatigue then ["fatigue"] else []) ++
   (if symptoms.mood = some ("sad") ∨ symptoms.mood = some ("irritated") ∨
       symptoms.mood = some ("anxious") ∨ symptoms.mood = some ("depressed")
    then ["mood"] else []) ++
   (if symptoms.sleep_quality = some ("poor") ∨
       symptoms.sleep_quality = some ("fair")
    then ["sleep_quality"] else []))

/-- Model of `_convert_to_preventive`: only `lifestyle` entries survive, retitled,
recategorized as `preventive` and forced to priority `low`. -/
def convertToPreventive (suggestions : List Suggestion) : List Suggestion :=
  suggestions.filterMap (fun s =>
    if s.category = "lifestyle" then
      some { category := "preventive", title := "Prevent: " ++ s.title
             description := "To prevent symptoms: " ++ s.description
             priority := "low" }
    else none)

/-- Model of `_get_preventive_suggestions`: for each prediction above probability 0.7
whose symptom is a catalog key, the preventive transform of its entries. -/
def getPreventiveSuggestions (predicted : List PredictedSymptom) :
    List Suggestion × List String :=
  (predicted.foldl (fun acc p =>
    if (7/10 : ℚ) < p.probability ∧ (suggestionDatabase.lookup p.symptom).isSome
    then acc ++ convertToPreventive (dbGet p.symptom) else acc) [],
   predicted.foldl (fun acc p =>
    if (7/10 : ℚ) < p.probability ∧ (suggestionDatabase.lookup p.symptom).isSome
    then acc ++ ["predicted_" ++ p.symptom] else acc) [])

/-- Model of `_get_general_wellness_suggestions`. -/
def getGeneralWellnessSuggestions : List Suggestion :=
  [{ category := "lifestyle", title := "Stay Hydrated"
     description := "Drink at least 8 glasses of water throughout the day."
     priority := "low" },
   { category := "lifestyle", title := "Balanced Nutrition"
     description := "Include fruits, vegetables, and whole grains in your meals."
     priority := "low" }]

/-- The priority rank of `_deduplicate_suggestions`:
`priority_order.get(priority, 3)`. -/
def prioRank (s : Suggestion) : ℕ :=
  if s.priority = "high" then 0
  else if s.priority = "medium" then 1
  else if s.priority = "low" then 2
  else 3

/-- Ordering by ascending priority rank. -/
def prioLE (a b : Suggestion) : Prop := prioRank a ≤ prioRank b

instance : DecidableRel prioLE := fun a b => Nat.decLe (prioRank a) (prioRank b)

instance : IsTotal Suggestion prioLE :=
  ⟨fun a b => Nat.le_total (prioRank a) (prioRank b)⟩

instance : IsTrans Suggestion prioLE :=
  ⟨fun _ _ _ hab hbc => Nat.le_trans hab hbc⟩

/-- The deduplication pass of `_deduplicate_suggestions`: keep a suggestion
when its `(title, category)` pair has not been seen. -/
def dedupLoop (seen : List (String × String)) :
    List Suggestion → List Suggestion
  | [] => []
  | s :: rest =>
    if (s.title, s.category) ∈ seen then dedupLoop seen rest
    else s :: dedupLoop ((s.title, s.category) :: seen) rest

/-- Model of `_deduplicate_suggestions`: stable sort ascending by priority rank,
deduplicate keeping first occurrences, truncate to 10. -/
def deduplicateSuggestions (suggestions : List Suggestion) : List Suggestion :=
  (dedupLoop [] (suggestions.insertionSort prioLE)).take 10

/-- The full suggestion list `generate_suggestions` assembles before
deduplication: current-symptom, preventive, then general entries. -/
def collectedSuggestions (current_symptoms : Option SymptomEntry)
    (predicted_symptoms : List PredictedSymptom) : List Suggestion :=
  (match current_symptoms with
   | some cs => (getCurrentSymptomSuggestions cs).1
   | none => []) ++
  (if predicted_symptoms ≠ [] then
    (getPreventiveSuggestions predicted_symptoms).1
  else []) ++
  getGeneralWellnessSuggestions

/-- Model of `generate_suggestions`. `today` stands for `date.today()` (used only when
no current symptoms are given). -/
def generateSuggestions (today : ℤ) (current_symptoms : Option SymptomEntry)
    (predicted_symptoms : List PredictedSymptom) : SuggestionResponse :=
  let based_on :=
    (match current_symptoms with
     | some cs => (getCurrentSymptomSuggestions cs).2
     | none => []) ++
    (if predicted_symptoms ≠ [] then
      (getPreventiveSuggestions predicted_symptoms).2
    else [])
  { suggestions :=
      deduplicateSuggestions
        (collectedSuggestions current_symptoms predicted_symptoms)
    based_on_symptoms := dedupKeepFirst based_on
    date := match current_symptoms with
            | some cs => cs.date
            | none => today }

/-! Claim-side helper functions and concrete example data. -/

/-- The per-entry condition tallied by `_analyze_symptom_sequences` under a
given symptom name (`cramps` means cramps present, everything else `False`). -/
def condOf (name : String) : SymptomEntry → Bool :=
  if name = "headache" then fun s => s.headache
  else if name = "nausea" then fun s => s.nausea
  else if name = "fatigue" then fun s => s.fatigue
  else if name = "cramps" then fun s => crampsPresent s
  else fun _ => false

/-- Number of entries satisfying the condition named `name`. -/
def condCount (name : String) (l : List SymptomEntry) : ℕ :=
  (l.filter (condOf name)).length

/-- First-match lookup in a count association list, 0 when absent. -/
def lookupCount : List (String × ℕ) → String → ℕ
  | [], _ => 0
  | (k2, n) :: rest, k => if k2 = k then n else lookupCount rest k

/-- The deduplication key of `_deduplicate_suggestions`. -/
def sugKey (s : Suggestion) : String × String := (s.title, s.category)

/-- Entries realizing the worked example of the spec: period starts on
2024-01-01 and 2024-01-29, a 28-day gap. -/
def exTwoStarts : List CycleEntry :=
  [{ date := civilDate 2024 1 1, is_period_day := true },
   { date := civilDate 2024 1 2 },
   { date := civilDate 2024 1 29, is_period_day := true }]

/-- Entries with period starts at days 0, 40 and 68: consecutive gaps of 40
(implausible) and 28 (plausible) days. -/
def exGap40 : List CycleEntry :=
  [{ date := 0, is_period_day := true },
   { date := 1 },
   { date := 40, is_period_day := true },
   { date := 41 },
   { date := 68, is_period_day := true }]

/-- A single period start at day 0. -/
def exOneStart : List CycleEntry := [{ date := 0, is_period_day := true }]

/-- Three consecutive daily symptom entries, all with headache. -/
def exHeadache3 : List SymptomEntry :=
  [{ date := 0, headache := true },
   { date := 1, headache := true },
   { date := 2, headache := true }]

/-- Two consecutive daily symptom entries, all with headache: too short for
the pattern heuristic. -/
def exHeadache2 : List SymptomEntry :=
  [{ date := 0, headache := true },
   { date := 1, headache := true }]

/-- A symptom entry on which all six suggestion conditions fire. -/
def exAllConditions : SymptomEntry :=
  { date := 0, mood := some ("sad"), cramps := some ("strong")
    headache := true, nausea := true, fatigue := true
    flow_level := some ("medium"), sleep_quality := some ("poor") }

/-! ### Theorems: the claims -/

/-- C1: The phase classifier is a total function of
`(cycle_day, cycle_length)` that evaluates exactly the four rules in order
with first match winning — menstrual when `cycle_day ≤ 5`, else follicular
when `cycle_day ≤ cycle_length − 14`, else ovulation when
`|cycle_day − (cycle_length − 14)| ≤ 2`, else luteal — for every integer
`cycle_day ≥ 1` and every `cycle_length`, and its value is always one of the
four phases. -/
theorem C1_phase_classifier_rule (cycle_day : ℤ) (cycle_length : ℚ)
    (_h : 1 ≤ cycle_day) :
    getCurrentPhase cycle_day cycle_length =
      (if cycle_day ≤ 5 then ("menstrual")
       else if (cycle_day : ℚ) ≤ cycle_length - 14 then ("follicular")
       else if |(cycle_day : ℚ) - (cycle_length - 14)| ≤ 2 then ("ovulation")
       else ("luteal")) ∧
    getCurrentPhase cycle_day cycle_length ∈
      (["menstrual", "follicular", "ovulation", "luteal"] : List String) := by
  refine ⟨rfl, ?_⟩
  unfold getCurrentPhase
  split_ifs <;> simp

/-- Witness for C1 at `cycle_day = 1`, `cycle_length = 28`. -/
theorem C1_phase_classifier_rule_witness :
    getCurrentPhase 1 28 =
      (if (1 : ℤ) ≤ 5 then ("menstrual")
       else if ((1 : ℤ) : ℚ) ≤ 28 - 14 then ("follicular")
       else if |((1 : ℤ) : ℚ) - (28 - 14)| ≤ 2 then ("ovulation")
       else ("luteal")) ∧
    getCurrentPhase 1 28 ∈
      (["menstrual", "follicular", "ovulation", "luteal"] : List String) :=
  C1_phase_classifier_rule 1 28 (by norm_num)

/-- C2 fails on the code: at `cycle_day = 14`, `cycle_length = 28` the second
rule `14 ≤ 28 − 14` fires before the ovulation rule, so the classifier
returns follicular, not ovulation as the claim states. -/
theorem C2_counterexample_day14 :
    getCurrentPhase 14 28 = "follicular" ∧
      ¬ getCurrentPhase 14 28 = "ovulation" := by
  have h : getCurrentPhase 14 28 = "follicular" := by
    norm_num [getCurrentPhase]
  exact ⟨h, by rw [h]; decide⟩

/-- C2 (amended): for `cycle_length = 28` the phase classifier returns
menstrual at day 1, follicular at day 14 (rule 2 fires first), luteal at
day 20, and follicular at day 10. -/
theorem C2_worked_examples_amended :
    getCurrentPhase 1 28 = "menstrual" ∧
    getCurrentPhase 14 28 = "follicular" ∧
    getCurrentPhase 20 28 = "luteal" ∧
    getCurrentPhase 10 28 = "follicular" := by
  refine ⟨?_, ?_, ?_, ?_⟩ <;> norm_num [getCurrentPhase]

/-! Lemmas about maximal runs and the period-start walk (claim C3). -/

theorem splitRunsR_cons_eq (e : CycleEntry) (rest : List CycleEntry) :
    splitRunsR (e :: rest) =
      (match splitRunsR rest with
       | [] => [[e]]
       | [] :: rs => [[e]] ++ rs
       | (f :: r) :: rs =>
         if e.is_period_day = f.is_period_day then (e :: f :: r) :: rs
         else [e] :: (f :: r) :: rs) := rfl

theorem splitRunsR_cons_shape (f : CycleEntry) (t : List CycleEntry) :
    ∃ r rs, splitRunsR (f :: t) = (f :: r) :: rs ∧
      ∀ x ∈ r, x.is_period_day = f.is_period_day := by
  induction t generalizing f with
  | nil => exact ⟨[], [], rfl, by simp⟩
  | cons g t ih =>
    obtain ⟨r, rs, hsp, hom⟩ := ih g
    by_cases hef : f.is_period_day = g.is_period_day
    · refine ⟨g :: r, rs, ?_, ?_⟩
      · rw [splitRunsR_cons_eq, hsp]
        show (if f.is_period_day = g.is_period_day then (f :: g :: r) :: rs
          else [f] :: (g :: r) :: rs) = (f :: g :: r) :: rs
        exact if_pos hef
      · intro x hx
        rcases List.mem_cons.1 hx with hx | hx
        · rw [hx, hef]
        · rw [hom x hx, hef]
    · refine ⟨[], (g :: r) :: rs, ?_, by simp⟩
      rw [splitRunsR_cons_eq, hsp]
      show (if f.is_period_day = g.is_period_day then (f :: g :: r) :: rs
        else [f] :: (g :: r) :: rs) = [f] :: (g :: r) :: rs
      exact if_neg hef

theorem splitRunsR_ne_nil :
    ∀ (l : List CycleEntry), ∀ r ∈ splitRunsR l, r ≠ [] := by
  intro l
  induction l with
  | nil => intro r hr; simp [splitRunsR] at hr
  | cons e rest ih =>
    intro r hr
    rcases rest with _ | ⟨f, t⟩
    · have hr2 : r ∈ [[e]] := hr
      simp at hr2
      rw [hr2]; simp
    · obtain ⟨r2, rs, hsp, _⟩ := splitRunsR_cons_shape f t
      rw [splitRunsR_cons_eq, hsp] at hr
      have hr2 : r ∈ (if e.is_period_day = f.is_period_day
          then (e :: f :: r2) :: rs else [e] :: (f :: r2) :: rs) := hr
      by_cases hef : e.is_period_day = f.is_period_day
      · rw [if_pos hef] at hr2
        rcases List.mem_cons.1 hr2 with h | h
        · rw [h]; simp
        · exact ih r (by rw [hsp]; exact List.mem_cons_of_mem _ h)
      · rw [if_neg hef] at hr2
        rcases List.mem_cons.1 hr2 with h | h
        · rw [h]; simp
        · exact ih r (by rw [hsp]; exact h)

theorem isPeriodRun_of_hom (f : CycleEntry) (r : List CycleEntry)
    (hom : ∀ x ∈ r, x.is_period_day = f.is_period_day) :
    isPeriodRun (f :: r) = f.is_period_day := by
  cases hf : f.is_period_day
  · simp [isPeriodRun, hf]
  · simp only [isPeriodRun, List.isEmpty_cons, Bool.not_false, List.all_cons,
      hf, Bool.true_and]
    rw [List.all_eq_true]
    intro x hx
    rw [hom x hx, hf]

theorem periodStartsLoop_cons_eq (b : Bool) (e : CycleEntry)
    (rest : List CycleEntry) :
    periodStartsLoop b (e :: rest) =
      (if e.is_period_day then
        (if b then periodStartsLoop true rest
         else e.date :: periodStartsLoop true rest)
      else periodStartsLoop false rest) := rfl

/-- The walk of `_get_period_starts` computes the first dates of the maximal
runs of period-day entries; started in-period it skips a leading run. -/
theorem periodStartsLoop_runs : ∀ l : List CycleEntry,
    periodStartsLoop false l = runFirstDates l ∧
    periodStartsLoop true l =
      (if (l.head?.map (·.is_period_day)).getD false then (runFirstDates l).tail
       else runFirstDates l) := by
  intro l
  induction l with
  | nil => exact ⟨rfl, rfl⟩
  | cons e rest ih =>
    obtain ⟨ihF, ihT⟩ := ih
    rcases rest with _ | ⟨f, t⟩
    · constructor
      · cases he : e.is_period_day <;>
          simp [periodStartsLoop_cons_eq, periodStartsLoop, he, runFirstDates,
            splitRunsR, isPeriodRun]
      · cases he : e.is_period_day <;>
          simp [periodStartsLoop_cons_eq, periodStartsLoop, he, runFirstDates,
            splitRunsR, isPeriodRun]
    · obtain ⟨r, rs, hsp, hom⟩ := splitRunsR_cons_shape f t
      have hpr : isPeriodRun (f :: r) = f.is_period_day := isPeriodRun_of_hom f r hom
      have hRrest : runFirstDates (f :: t) =
          if f.is_period_day then
            f.date :: (rs.filter isPeriodRun).filterMap (fun r => r.head?.map (·.date))
          else (rs.filter isPeriodRun).filterMap (fun r => r.head?.map (·.date)) := by
        cases hf : f.is_period_day <;>
          simp [runFirstDates, hsp, List.filter_cons, hpr, hf]
      have hWT : periodStartsLoop true (f :: t) =
          (rs.filter isPeriodRun).filterMap (fun r => r.head?.map (·.date)) := by
        rw [ihT]
        cases hf : f.is_period_day <;> simp [hf, hRrest]
      have hRcons : runFirstDates (e :: f :: t) =
          if e.is_period_day then
            e.date :: (rs.filter isPeriodRun).filterMap (fun r => r.head?.map (·.date))
          else runFirstDates (f :: t) := by
        by_cases hef : e.is_period_day = f.is_period_day
        · have hsp2 : splitRunsR (e :: f :: t) = (e :: f :: r) :: rs := by
            rw [splitRunsR_cons_eq, hsp]
            show (if e.is_period_day = f.is_period_day
              then (e :: f :: r) :: rs else [e] :: (f :: r) :: rs) =
              (e :: f :: r) :: rs
            exact if_pos hef
          have hpr2 : isPeriodRun (e :: f :: r) = e.is_period_day := by
            refine isPeriodRun_of_hom e (f :: r) ?_
            intro x hx
            rcases List.mem_cons.1 hx with hx | hx
            · rw [hx, hef]
            · rw [hom x hx, hef]
          cases he : e.is_period_day
          · rw [hRrest, ← hef, he]
            simp [runFirstDates, hsp2, List.filter_cons, hpr2, he]
          · simp [runFirstDates, hsp2, List.filter_cons, hpr2, he]
        · have hsp2 : splitRunsR (e :: f :: t) = [e] :: (f :: r) :: rs := by
            rw [splitRunsR_cons_eq, hsp]
            show (if e.is_period_day = f.is_period_day
              then (e :: f :: r) :: rs else [e] :: (f :: r) :: rs) =
              [e] :: (f :: r) :: rs
            exact if_neg hef
          have hpr2 : isPeriodRun [e] = e.is_period_day := by
            cases he : e.is_period_day <;> simp [isPeriodRun, he]
          cases he : e.is_period_day
          · have hf : f.is_period_day = true := by
              cases hfv : f.is_period_day
              · exact absurd (he.trans hfv.symm) hef
              · rfl
            simp [runFirstDates, hsp2, hsp, List.filter_cons, hpr2, he, hpr, hf]
          · have hf : f.is_period_day = false := by
              cases hfv : f.is_period_day
              · rfl
              · exact absurd (he.trans hfv.symm) hef
            simp [runFirstDates, hsp2, hsp, List.filter_cons, hpr2, he, hpr, hf]
      constructor
      · rw [periodStartsLoop_cons_eq, hRcons]
        cases he : e.is_period_day
        · simp [he, ihF]
        · simp [he, hWT]
      · rw [periodStartsLoop_cons_eq, hRcons]
        cases he : e.is_period_day
        · simp [he, ihF, hRcons]
        · simp [he, hWT, hRcons]

theorem filterMap_headDate_length :
    ∀ (rl : List (List CycleEntry)), (∀ r ∈ rl, r ≠ []) →
      (rl.filterMap (fun r => r.head?.map (·.date))).length = rl.length := by
  intro rl
  induction rl with
  | nil => intro _; rfl
  | cons r rl ih =>
    intro h
    rcases r with _ | ⟨x, xs⟩
    · exact absurd rfl (h [] (List.mem_cons_self _ _))
    · have hstep : List.filterMap (fun r => Option.map (fun y => y.date) r.head?)
          ((x :: xs) :: rl) =
          x.date :: List.filterMap (fun r => Option.map (fun y => y.date) r.head?) rl := rfl
      rw [hstep, List.length_cons, List.length_cons,
        ih (fun r hr => h r (List.mem_cons_of_mem _ hr))]

/-- C3: For every entry list, the period starts detected by
`_get_period_starts` (after sorting by date) are exactly the first dates of
the maximal consecutive runs of entries with `is_period_day = true`, and
their number equals the number of such maximal runs. -/
theorem C3_period_starts_are_run_firsts (entries : List CycleEntry) :
    getPeriodStarts entries = runFirstDates (sortEntriesByDate entries) ∧
    (getPeriodStarts entries).length =
      ((splitRunsR (sortEntriesByDate entries)).filter isPeriodRun).length := by
  have hg : getPeriodStarts entries = runFirstDates (sortEntriesByDate entries) :=
    (periodStartsLoop_runs (sortEntriesByDate entries)).1
  refine ⟨hg, ?_⟩
  rw [hg, runFirstDates]
  refine filterMap_headDate_length _ ?_
  intro r hr
  exact splitRunsR_ne_nil _ r (List.mem_filter.1 hr).1

/-! Lemmas about `calculate_cycle_stats` (claims C4, C5, C7). -/

theorem cycleGaps_length :
    ∀ l : List ℤ, l ≠ [] → (cycleGaps l).length + 1 = l.length := by
  intro l
  induction l with
  | nil => intro h; exact absurd rfl h
  | cons a t ih =>
    intro _
    rcases t with _ | ⟨b, t2⟩
    · rfl
    · have h2 := ih (by simp)
      simp only [cycleGaps, List.length_cons] at h2 ⊢
      omega

/-- With fewer than two period starts, `calculate_cycle_stats` returns the
degenerate record. -/
theorem calculateCycleStats_under_two (today : ℤ) (entries : List CycleEntry)
    (h : (getPeriodStarts entries).length < 2) :
    calculateCycleStats today entries =
      { average_cycle_length := none
        average_period_length := none
        last_period_start := (getPeriodStarts entries).head?
        next_predicted_period := none
        next_predicted_ovulation := none
        current_cycle_day := none
        current_phase := none
        total_cycles_tracked := (getPeriodStarts entries).length } := by
  simp only [calculateCycleStats]
  rw [if_pos h]

/-- Field-by-field value of `calculate_cycle_stats` when at least two period
starts exist. -/
theorem calculateCycleStats_two_starts (today : ℤ) (entries : List CycleEntry)
    (h2 : 2 ≤ (getPeriodStarts entries).length) :
    ∃ lp, (getPeriodStarts entries).getLast? = some lp ∧
      calculateCycleStats today entries =
        { average_cycle_length :=
            some (if (cycleGaps (getPeriodStarts entries)).filter
                (fun g => decide (21 ≤ g ∧ g ≤ 35)) ≠ [] then
              intMean ((cycleGaps (getPeriodStarts entries)).filter
                (fun g => decide (21 ≤ g ∧ g ≤ 35)))
            else 28)
          average_period_length :=
            some (if (getPeriodStarts entries).filterMap
                (fun s => calculatePeriodLength entries s) ≠ [] then
              natMean ((getPeriodStarts entries).filterMap
                (fun s => calculatePeriodLength entries s))
            else 5)
          last_period_start := some lp
          next_predicted_period :=
            some (lp + pyInt (if (cycleGaps (getPeriodStarts entries)).filter
                (fun g => decide (21 ≤ g ∧ g ≤ 35)) ≠ [] then
              intMean ((cycleGaps (getPeriodStarts entries)).filter
                (fun g => decide (21 ≤ g ∧ g ≤ 35)))
            else 28))
          next_predicted_ovulation :=
            some (lp + pyInt ((if (cycleGaps (getPeriodStarts entries)).filter
                (fun g => decide (21 ≤ g ∧ g ≤ 35)) ≠ [] then
              intMean ((cycleGaps (getPeriodStarts entries)).filter
                (fun g => decide (21 ≤ g ∧ g ≤ 35)))
            else 28) - 14))
          current_cycle_day := some (today - lp + 1)
          current_phase :=
            some (getCurrentPhase (today - lp + 1)
              (if (cycleGaps (getPeriodStarts entries)).filter
                  (fun g => decide (21 ≤ g ∧ g ≤ 35)) ≠ [] then
                intMean ((cycleGaps (getPeriodStarts entries)).filter
                  (fun g => decide (21 ≤ g ∧ g ≤ 35)))
              else 28))
          total_cycles_tracked := (getPeriodStarts entries).length } := by
  have hne : getPeriodStarts entries ≠ [] := by
    intro h
    rw [h] at h2
    simp at h2
  obtain ⟨lp, hlp⟩ :=
    Option.isSome_iff_exists.1 ((List.getLast?_isSome).2 hne)
  refine ⟨lp, hlp, ?_⟩
  simp only [calculateCycleStats]
  rw [if_neg (by omega), hlp]

/-- C4: For every entry list with at least two period starts, every gap
between consecutive period starts is counted toward `total_cycles_tracked`
(which equals the number of gaps plus one, with no plausibility filter),
while `average_cycle_length` is the arithmetic mean of only the gaps lying in
[21,35] days, defaulting to 28 when no gap lies in that range; in particular
the concrete history with gaps 40 and 28 tracks 3 cycles, counts the 40-day
gap, and averages only the 28-day gap. -/
theorem C4_gap_counting_and_average :
    (∀ (today : ℤ) (entries : List CycleEntry),
      2 ≤ (getPeriodStarts entries).length →
      (calculateCycleStats today entries).total_cycles_tracked =
        (cycleGaps (getPeriodStarts entries)).length + 1 ∧
      ((cycleGaps (getPeriodStarts entries)).filter
          (fun g => decide (21 ≤ g ∧ g ≤ 35)) ≠ [] →
        (calculateCycleStats today entries).average_cycle_length =
          some (intMean ((cycleGaps (getPeriodStarts entries)).filter
            (fun g => decide (21 ≤ g ∧ g ≤ 35))))) ∧
      ((cycleGaps (getPeriodStarts entries)).filter
          (fun g => decide (21 ≤ g ∧ g ≤ 35)) = [] →
        (calculateCycleStats today entries).average_cycle_length = some 28)) ∧
    (cycleGaps (getPeriodStarts exGap40) = [40, 28] ∧
      (calculateCycleStats 0 exGap40).total_cycles_tracked = 3 ∧
      (calculateCycleStats 0 exGap40).average_cycle_length = some 28) := by
  constructor
  · intro today entries h2
    obtain ⟨lp, _, hstats⟩ := calculateCycleStats_two_starts today entries h2
    have hne : getPeriodStarts entries ≠ [] := by
      intro h
      rw [h] at h2
      simp at h2
    refine ⟨?_, ?_, ?_⟩
    · rw [hstats]
      exact (cycleGaps_length _ hne).symm
    · intro hvalid
      rw [hstats, if_pos hvalid]
    · intro hvalid
      rw [hstats, if_neg (fun hc => hc hvalid)]
  · have hps : getPeriodStarts exGap40 = [0, 40, 68] := by decide
    have hgaps : cycleGaps (getPeriodStarts exGap40) = [40, 28] := by
      rw [hps]; rfl
    refine ⟨hgaps, ?_, ?_⟩
    · simp only [calculateCycleStats, hps]
      norm_num
    · simp only [calculateCycleStats, hps]
      norm_num [cycleGaps, intMean]

/-- Witness for the universally quantified part of C4 at the concrete
two-gap history `exGap40`. -/
theorem C4_gap_counting_and_average_witness :
    (calculateCycleStats 0 exGap40).total_cycles_tracked =
      (cycleGaps (getPeriodStarts exGap40)).length + 1 :=
  (C4_gap_counting_and_average.1 0 exGap40 (by decide)).1

/-- C5: For every entry list with at least two period starts,
`next_predicted_period` is the last period start plus the (int-truncated)
average cycle length, `next_predicted_ovulation` is the last start plus the
average minus 14, and `current_cycle_day` is `(today − last start) + 1`,
un-wrapped for every value of `today`; concretely, period starts on
2024-01-01 and 2024-01-29 give an average of exactly 28, last start
2024-01-29 and next predicted period 2024-02-26. -/
theorem C5_predictions_from_last_start :
    (∀ (today : ℤ) (entries : List CycleEntry),
      2 ≤ (getPeriodStarts entries).length →
      ∃ lp avg,
        (calculateCycleStats today entries).last_period_start = some lp ∧
        (calculateCycleStats today entries).average_cycle_length = some avg ∧
        (calculateCycleStats today entries).next_predicted_period =
          some (lp + pyInt avg) ∧
        (calculateCycleStats today entries).next_predicted_ovulation =
          some (lp + pyInt (avg - 14)) ∧
        (calculateCycleStats today entries).current_cycle_day =
          some (today - lp + 1)) ∧
    ((calculateCycleStats (civilDate 2024 2 1) exTwoStarts).average_cycle_length =
        some 28 ∧
      (calculateCycleStats (civilDate 2024 2 1) exTwoStarts).last_period_start =
        some (civilDate 2024 1 29) ∧
      (calculateCycleStats (civilDate 2024 2 1) exTwoStarts).next_predicted_period =
        some (civilDate 2024 2 26)) := by
  constructor
  · intro today entries h2
    obtain ⟨lp, _, hstats⟩ := calculateCycleStats_two_starts today entries h2
    exact ⟨lp, _, by rw [hstats], by rw [hstats], by rw [hstats],
      by rw [hstats], by rw [hstats]⟩
  · have hps : getPeriodStarts exTwoStarts = [19723, 19751] := by decide
    have h29 : civilDate 2024 1 29 = 19751 := by decide
    have h26 : civilDate 2024 2 26 = 19779 := by decide
    refine ⟨?_, ?_, ?_⟩ <;>
      · simp only [calculateCycleStats, hps, h29, h26]
        norm_num [cycleGaps, intMean, pyInt]

/-- Witness for the universally quantified part of C5 at the concrete
history `exTwoStarts`. -/
theorem C5_predictions_from_last_start_witness :
    ∃ lp avg,
      (calculateCycleStats 0 exTwoStarts).last_period_start = some lp ∧
      (calculateCycleStats 0 exTwoStarts).average_cycle_length = some avg ∧
      (calculateCycleStats 0 exTwoStarts).next_predicted_period =
        some (lp + pyInt avg) ∧
      (calculateCycleStats 0 exTwoStarts).next_predicted_ovulation =
        some (lp + pyInt (avg - 14)) ∧
      (calculateCycleStats 0 exTwoStarts).current_cycle_day =
        some (0 - lp + 1) :=
  C5_predictions_from_last_start.1 0 exTwoStarts (by decide)

/-- C7: For every entry list with fewer than two period starts,
`calculate_cycle_stats` returns (without failing — it is a total function)
the degenerate stats record: `total_cycles_tracked` is the number of starts,
`last_period_start` the single start if one exists (`head?`), and every
other field null. -/
theorem C7_degenerate_stats (today : ℤ) (entries : List CycleEntry)
    (h : (getPeriodStarts entries).length < 2) :
    calculateCycleStats today entries =
      { average_cycle_length := none
        average_period_length := none
        last_period_start := (getPeriodStarts entries).head?
        next_predicted_period := none
        next_predicted_ovulation := none
        current_cycle_day := none
        current_phase := none
        total_cycles_tracked := (getPeriodStarts entries).length } :=
  calculateCycleStats_under_two today entries h

/-- Witness for C7 on the empty entry list. -/
theorem C7_degenerate_stats_witness :
    calculateCycleStats 0 [] =
      { average_cycle_length := none
        average_period_length := none
        last_period_start := (getPeriodStarts []).head?
        next_predicted_period := none
        next_predicted_ovulation := none
        current_cycle_day := none
        current_phase := none
        total_cycles_tracked := (getPeriodStarts []).length } :=
  C7_degenerate_stats 0 [] (by decide)

/-! Lemmas about `generate_predictions` (claims C6, C10). -/

theorem intMean_bounds (l : List ℤ) (hne : l ≠ [])
    (hlo : ∀ x ∈ l, (21 : ℤ) ≤ x) (hhi : ∀ x ∈ l, x ≤ 35) :
    21 ≤ intMean l ∧ intMean l ≤ 35 := by
  have hlen : 0 < (l.length : ℚ) := by
    have := List.length_pos.2 hne
    exact_mod_cast this
  have hmaplen : (l.map (fun x : ℤ => (x : ℚ))).length = l.length :=
    List.length_map _ _
  constructor
  · rw [intMean, le_div_iff₀ hlen]
    have h := List.card_nsmul_le_sum (l.map (fun x : ℤ => (x : ℚ))) 21 ?_
    · rw [hmaplen, nsmul_eq_mul] at h
      calc (21 : ℚ) * l.length = (l.length : ℚ) * 21 := by ring
        _ ≤ _ := h
    · intro x hx
      obtain ⟨y, hy, rfl⟩ := List.mem_map.1 hx
      exact_mod_cast hlo y hy
  · rw [intMean, div_le_iff₀ hlen]
    have h := List.sum_le_card_nsmul (l.map (fun x : ℤ => (x : ℚ))) 35 ?_
    · rw [hmaplen, nsmul_eq_mul] at h
      calc (l.map (fun x : ℤ => (x : ℚ))).sum ≤ (l.length : ℚ) * 35 := h
        _ = 35 * l.length := by ring
    · intro x hx
      obtain ⟨y, hy, rfl⟩ := List.mem_map.1 hx
      exact_mod_cast hhi y hy

/-- Whenever `average_cycle_length` is present it lies in [21, 35]: it is the
mean of gaps filtered to that interval, or the default 28. -/
theorem average_cycle_length_bounds (today : ℤ) (entries : List CycleEntry)
    {q : ℚ}
    (h : (calculateCycleStats today entries).average_cycle_length = some q) :
    21 ≤ q ∧ q ≤ 35 := by
  by_cases h2 : (getPeriodStarts entries).length < 2
  · rw [calculateCycleStats_under_two today entries h2] at h
    simp at h
  · obtain ⟨lp, _, hstats⟩ :=
      calculateCycleStats_two_starts today entries (by omega)
    rw [hstats] at h
    have hq : (if (cycleGaps (getPeriodStarts entries)).filter
        (fun g => decide (21 ≤ g ∧ g ≤ 35)) ≠ [] then
          intMean ((cycleGaps (getPeriodStarts entries)).filter
            (fun g => decide (21 ≤ g ∧ g ≤ 35)))
        else 28) = q := by
      injection h
    by_cases hvalid : (cycleGaps (getPeriodStarts entries)).filter
        (fun g => decide (21 ≤ g ∧ g ≤ 35)) ≠ []
    · rw [if_pos hvalid] at hq
      rw [← hq]
      refine intMean_bounds _ hvalid ?_ ?_ <;>
        · intro x hx
          have := (List.mem_filter.1 hx).2
          have hand := of_decide_eq_true this
          omega
    · rw [if_neg hvalid] at hq
      rw [← hq]
      norm_num

theorem pyInt_of_nonneg {q : ℚ} (h : 0 ≤ q) : pyInt q = ⌊q⌋ := if_pos h

/-- Field-by-field value of the prediction at each offset when a last period
start exists. -/
theorem generatePredictions_spec (today : ℤ) (entries : List CycleEntry)
    (days_ahead : ℕ) (lp : ℤ)
    (hlp : (calculateCycleStats today entries).last_period_start = some lp) :
    (generatePredictions today entries days_ahead).length = days_ahead ∧
    ∀ (i : ℕ) (p : CyclePrediction),
      (generatePredictions today entries days_ahead)[i]? = some p →
      p.date = today + i ∧
      p.cycle_day = (today + i - lp) %
        pyInt ((calculateCycleStats today entries).average_cycle_length.getD 28)
        + 1 ∧
      p.phase = getCurrentPhase p.cycle_day
        ((calculateCycleStats today entries).average_cycle_length.getD 28) ∧
      p.predicted_mood = predictMood p.phase entries ∧
      p.predicted_symptoms = predictSymptoms p.phase entries ∧
      p.hormone_levels = predictHormoneLevels p.cycle_day
        ((calculateCycleStats today entries).average_cycle_length.getD 28) ∧
      p.fertility_status = predictFertility p.cycle_day
        ((calculateCycleStats today entries).average_cycle_length.getD 28) := by
  have hgen : generatePredictions today entries days_ahead =
      (List.range days_ahead).map (fun i : ℕ =>
        let prediction_date := today + (i : ℤ)
        let days_since_last_period := prediction_date - lp
        let cycle_day := days_since_last_period %
          pyInt ((calculateCycleStats today entries).average_cycle_length.getD 28) + 1
        let phase := getCurrentPhase cycle_day
          ((calculateCycleStats today entries).average_cycle_length.getD 28)
        { date := prediction_date
          cycle_day := cycle_day
          phase := phase
          predicted_mood := predictMood phase entries
          predicted_symptoms := predictSymptoms phase entries
          hormone_levels := predictHormoneLevels cycle_day
            ((calculateCycleStats today entries).average_cycle_length.getD 28)
          fertility_status := predictFertility cycle_day
            ((calculateCycleStats today entries).average_cycle_length.getD 28) }) := by
    simp only [generatePredictions, hlp]
  constructor
  · rw [hgen]
    simp
  · intro i p hp
    rw [hgen, List.getElem?_map] at hp
    by_cases hi : i < days_ahead
    · rw [List.getElem?_range hi] at hp
      simp only [Option.map_some] at hp
      injection hp with hp
      subst hp
      exact ⟨rfl, rfl, rfl, rfl, rfl, rfl, rfl⟩
    · rw [List.getElem?_eq_none (by simpa using Nat.le_of_not_lt hi)] at hp
      simp at hp

/-- C6: Whenever the computed statistics carry a last period start,
`generate_predictions` returns exactly `days_ahead` predictions; the
prediction at offset `i` has date `today + i` and the wrapped cycle day
`((date − last start) mod cycle_length) + 1`, which always lies in
`[1, cycle_length]`; with no last period start, the result is empty. -/
theorem C6_generate_predictions_shape :
    (∀ (today : ℤ) (entries : List CycleEntry) (days_ahead : ℕ) (lp : ℤ),
      (calculateCycleStats today entries).last_period_start = some lp →
      (generatePredictions today entries days_ahead).length = days_ahead ∧
      ∀ (i : ℕ) (p : CyclePrediction),
        (generatePredictions today entries days_ahead)[i]? = some p →
        p.date = today + i ∧
        p.cycle_day = (p.date - lp) %
          pyInt ((calculateCycleStats today entries).average_cycle_length.getD 28)
          + 1 ∧
        1 ≤ p.cycle_day ∧
        (p.cycle_day : ℚ) ≤
          (calculateCycleStats today entries).average_cycle_length.getD 28) ∧
    (∀ (today : ℤ) (entries : List CycleEntry) (days_ahead : ℕ),
      (calculateCycleStats today entries).last_period_start = none →
      generatePredictions today entries days_ahead = []) := by
  constructor
  · intro today entries days_ahead lp hlp
    obtain ⟨hlen, hidx⟩ :=
      generatePredictions_spec today entries days_ahead lp hlp
    have hcl : 21 ≤ (calculateCycleStats today entries).average_cycle_length.getD 28 ∧
        (calculateCycleStats today entries).average_cycle_length.getD 28 ≤ 35 := by
      rcases havg : (calculateCycleStats today entries).average_cycle_length with _ | q
      · simp only [Option.getD_none]
        norm_num
      · simp only [Option.getD_some]
        exact average_cycle_length_bounds today entries havg
    set cl : ℚ := (calculateCycleStats today entries).average_cycle_length.getD 28 with hcldef
    have hcl0 : (0 : ℚ) ≤ cl := by linarith [hcl.1]
    have hfloor : pyInt cl = ⌊cl⌋ := pyInt_of_nonneg hcl0
    have hfl21 : (21 : ℤ) ≤ ⌊cl⌋ := Int.le_floor.2 (by exact_mod_cast hcl.1)
    have hflpos : (0 : ℤ) < pyInt cl := by rw [hfloor]; omega
    refine ⟨hlen, ?_⟩
    intro i p hp
    obtain ⟨hdate, hcd, _, _, _, _, _⟩ := hidx i p hp
    refine ⟨hdate, by rw [hdate]; exact hcd, ?_, ?_⟩
    · rw [hcd]
      have := Int.emod_nonneg (today + i - lp) (ne_of_gt hflpos)
      omega
    · rw [hcd]
      have hlt := Int.emod_lt_of_pos (today + i - lp) hflpos
      have hle : (today + i - lp) % pyInt cl + 1 ≤ pyInt cl := by omega
      have hcast : (((today + i - lp) % pyInt cl + 1 : ℤ) : ℚ) ≤ (pyInt cl : ℚ) :=
        Int.cast_le.2 hle
      refine le_trans hcast ?_
      rw [hfloor]
      exact Int.floor_le cl
  · intro today entries days_ahead hnone
    simp only [generatePredictions, hnone]

/-- Witness for C6: both conjuncts instantiated, the populated branch at the
two-start history and the empty branch at the empty history. -/
theorem C6_generate_predictions_shape_witness :
    (generatePredictions 19751 exTwoStarts 5).length = 5 ∧
    generatePredictions 0 [] 5 = [] := by
  constructor
  · exact (C6_generate_predictions_shape.1 19751 exTwoStarts 5 19751
      (by decide)).1
  · exact C6_generate_predictions_shape.2 0 [] 5 (by decide)

/-- C10: With exactly one period start, `generate_predictions` still returns
a full list of `days_ahead` predictions: the degenerate stats carry the
single start but a null average, and the generator substitutes the default
28-day cycle length when computing the wrapped cycle days, phases, hormones
and fertility. -/
theorem C10_single_start_default_cycle (today : ℤ) (entries : List CycleEntry)
    (days_ahead : ℕ) (h1 : (getPeriodStarts entries).length = 1) :
    ∃ s, getPeriodStarts entries = [s] ∧
      (calculateCycleStats today entries).average_cycle_length = none ∧
      (generatePredictions today entries days_ahead).length = days_ahead ∧
      ∀ (i : ℕ) (p : CyclePrediction),
        (generatePredictions today entries days_ahead)[i]? = some p →
        p.date = today + i ∧
        p.cycle_day = (today + i - s) % 28 + 1 ∧
        p.phase = getCurrentPhase p.cycle_day 28 ∧
        p.hormone_levels = predictHormoneLevels p.cycle_day 28 ∧
        p.fertility_status = predictFertility p.cycle_day 28 := by
  obtain ⟨s, hs⟩ := List.length_eq_one.1 h1
  have hdeg := calculateCycleStats_under_two today entries (by omega)
  have hlast : (calculateCycleStats today entries).last_period_start = some s := by
    rw [hdeg, hs]
    rfl
  have havg : (calculateCycleStats today entries).average_cycle_length = none := by
    rw [hdeg]
  obtain ⟨hlen, hidx⟩ :=
    generatePredictions_spec today entries days_ahead s hlast
  have h28 : pyInt ((calculateCycleStats today entries).average_cycle_length.getD 28)
      = 28 := by
    rw [havg, Option.getD_none]
    norm_num [pyInt]
  refine ⟨s, hs, havg, hlen, ?_⟩
  intro i p hp
  obtain ⟨hdate, hcd, hphase, _, _, hhorm, hfert⟩ := hidx i p hp
  rw [h28] at hcd
  rw [havg, Option.getD_none] at hphase hhorm hfert
  exact ⟨hdate, hcd, hphase, hhorm, hfert⟩

/-- Witness for C10 at the single-start history `exOneStart`. -/
theorem C10_single_start_default_cycle_witness :
    ∃ s, getPeriodStarts exOneStart = [s] ∧
      (calculateCycleStats 0 exOneStart).average_cycle_length = none ∧
      (generatePredictions 0 exOneStart 3).length = 3 ∧
      ∀ (i : ℕ) (p : CyclePrediction),
        (generatePredictions 0 exOneStart 3)[i]? = some p →
        p.date = 0 + i ∧
        p.cycle_day = (0 + i - s) % 28 + 1 ∧
        p.phase = getCurrentPhase p.cycle_day 28 ∧
        p.hormone_levels = predictHormoneLevels p.cycle_day 28 ∧
        p.fertility_status = predictFertility p.cycle_day 28 :=
  C10_single_start_default_cycle 0 exOneStart 3 (by decide)

/-! Lemmas about the frequency heuristic of the symptom predictor (claim C8). -/

theorem lookupCount_bumpCount_self :
    ∀ (l : List (String × ℕ)) (k : String),
      lookupCount (bumpCount l k) k = lookupCount l k + 1 := by
  intro l k
  induction l with
  | nil => simp [bumpCount, lookupCount]
  | cons p rest ih =>
    obtain ⟨k2, n⟩ := p
    by_cases h : k2 = k
    · simp [bumpCount, lookupCount, h]
    · simp [bumpCount, lookupCount, h, ih]

theorem lookupCount_bumpCount_other :
    ∀ (l : List (String × ℕ)) (k2 k : String), k2 ≠ k →
      lookupCount (bumpCount l k2) k = lookupCount l k := by
  intro l k2 k hne
  induction l with
  | nil =>
    show (if k2 = k then 1 else lookupCount [] k) = 0
    rw [if_neg hne]
    rfl
  | cons p rest ih =>
    obtain ⟨k3, n⟩ := p
    by_cases h : k3 = k2
    · have hb : bumpCount ((k3, n) :: rest) k2 = (k3, n + 1) :: rest := by
        show (if k3 = k2 then (k3, n + 1) :: rest
          else (k3, n) :: bumpCount rest k2) = (k3, n + 1) :: rest
        exact if_pos h
      have hk3 : k3 ≠ k := by rw [h]; exact hne
      rw [hb]
      show (if k3 = k then n + 1 else lookupCount rest k) =
        (if k3 = k then n else lookupCount rest k)
      rw [if_neg hk3, if_neg hk3]
    · have hb : bumpCount ((k3, n) :: rest) k2 = (k3, n) :: bumpCount rest k2 := by
        show (if k3 = k2 then (k3, n + 1) :: rest
          else (k3, n) :: bumpCount rest k2) = (k3, n) :: bumpCount rest k2
        exact if_neg h
      rw [hb]
      show (if k3 = k then n else lookupCount (bumpCount rest k2) k) =
        (if k3 = k then n else lookupCount rest k)
      by_cases h2 : k3 = k
      · rw [if_pos h2, if_pos h2]
      · rw [if_neg h2, if_neg h2, ih]

theorem lookupCount_countStep (acc : List (String × ℕ)) (s : SymptomEntry)
    (name : String)
    (hname : name ∈ (["headache", "nausea", "fatigue", "cramps"] : List String)) :
    lookupCount (countStep acc s) name =
      lookupCount acc name + (if condOf name s then 1 else 0) := by
  have hhn : ("headache" : String) ≠ "nausea" := by decide
  have hhf : ("headache" : String) ≠ "fatigue" := by decide
  have hhc : ("headache" : String) ≠ "cramps" := by decide
  have hnh : ("nausea" : String) ≠ "headache" := by decide
  have hnf : ("nausea" : String) ≠ "fatigue" := by decide
  have hnc : ("nausea" : String) ≠ "cramps" := by decide
  have hfh : ("fatigue" : String) ≠ "headache" := by decide
  have hfn : ("fatigue" : String) ≠ "nausea" := by decide
  have hfc : ("fatigue" : String) ≠ "cramps" := by decide
  have hch : ("cramps" : String) ≠ "headache" := by decide
  have hcn : ("cramps" : String) ≠ "nausea" := by decide
  have hcf : ("cramps" : String) ≠ "fatigue" := by decide
  simp only [List.mem_cons, List.not_mem_nil, or_false] at hname
  unfold countStep
  rcases hname with rfl | rfl | rfl | rfl <;>
    by_cases h1 : s.headache <;> by_cases h2 : s.nausea <;>
      by_cases h3 : s.fatigue <;> by_cases h4 : crampsPresent s <;>
        simp [h1, h2, h3, h4, condOf,
          lookupCount_bumpCount_self,
          lookupCount_bumpCount_other _ _ _ hhn,
          lookupCount_bumpCount_other _ _ _ hhf,
          lookupCount_bumpCount_other _ _ _ hhc,
          lookupCount_bumpCount_other _ _ _ hnh,
          lookupCount_bumpCount_other _ _ _ hnf,
          lookupCount_bumpCount_other _ _ _ hnc,
          lookupCount_bumpCount_other _ _ _ hfh,
          lookupCount_bumpCount_other _ _ _ hfn,
          lookupCount_bumpCount_other _ _ _ hfc,
          lookupCount_bumpCount_other _ _ _ hch,
          lookupCount_bumpCount_other _ _ _ hcn,
          lookupCount_bumpCount_other _ _ _ hcf]

theorem lookupCount_foldl (name : String)
    (hname : name ∈ (["headache", "nausea", "fatigue", "cramps"] : List String)) :
    ∀ (l : List SymptomEntry) (acc : List (String × ℕ)),
      lookupCount (l.foldl countStep acc) name =
        lookupCount acc name + condCount name l := by
  intro l
  induction l with
  | nil => intro acc; simp [condCount]
  | cons s l ih =>
    intro acc
    rw [List.foldl_cons, ih, lookupCount_countStep acc s name hname]
    unfold condCount
    rw [List.filter_cons]
    cases h : condOf name s <;> simp [h] <;> try omega

theorem lookupCount_symptomCounts (name : String)
    (hname : name ∈ (["headache", "nausea", "fatigue", "cramps"] : List String))
    (l : List SymptomEntry) :
    lookupCount (symptomCounts l) name = condCount name l := by
  unfold symptomCounts
  rw [lookupCount_foldl name hname l []]
  simp [lookupCount]

theorem mem_of_lookupCount_pos :
    ∀ (l : List (String × ℕ)) (k : String) (n : ℕ),
      lookupCount l k = n → 0 < n → (k, n) ∈ l := by
  intro l
  induction l with
  | nil =>
    intro k n h hpos
    rw [lookupCount] at h
    omega
  | cons p rest ih =>
    intro k n h hpos
    obtain ⟨k2, m⟩ := p
    by_cases hk : k2 = k
    · subst hk
      rw [lookupCount, if_pos rfl] at h
      subst h
      exact List.mem_cons_self _ _
    · rw [lookupCount, if_neg hk] at h
      exact List.mem_cons_of_mem _ (ih k n h hpos)

/-- C8 (amended): For every symptom log whose recent window (the at-most-7
most recent date-sorted entries) has at least 3 entries, each of headache,
nausea, fatigue and cramps-present whose occurrence rate over that window
exceeds 0.6 is included among the candidate predictions of
`predict_tomorrow_symptoms` with probability equal to that rate and
confidence `high` when the rate exceeds 0.8, else `medium`. -/
theorem C8_frequency_heuristic_amended (log : List SymptomEntry)
    (target_date : ℤ) (name : String)
    (h3 : 3 ≤ (recentSymptoms log).length)
    (hname : name ∈ (["headache", "nausea", "fatigue", "cramps"] : List String))
    (hrate : (3/5 : ℚ) <
      (condCount name (recentSymptoms log) : ℚ) / (recentSymptoms log).length) :
    ({ symptom := name
       probability :=
         (condCount name (recentSymptoms log) : ℚ) / (recentSymptoms log).length
       confidence :=
         if (4/5 : ℚ) <
             (condCount name (recentSymptoms log) : ℚ) /
               (recentSymptoms log).length
         then ("high") else ("medium") } : PredictedSymptom) ∈
      candidatePredictions (recentSymptoms log) target_date := by
  set recent := recentSymptoms log with hrec
  have hcpos : 0 < condCount name recent := by
    by_contra hc
    have h0 : condCount name recent = 0 := by omega
    rw [h0] at hrate
    norm_num at hrate
  have hmemcount : (name, condCount name recent) ∈ symptomCounts recent :=
    mem_of_lookupCount_pos _ name _
      (lookupCount_symptomCounts name hname recent) hcpos
  have hmemseq : (name, (condCount name recent : ℚ) / recent.length) ∈
      analyzeSymptomSequences recent := by
    unfold analyzeSymptomSequences
    exact List.mem_map_of_mem _ hmemcount
  refine List.mem_append_left _ (List.mem_append_left _ ?_)
  unfold predictByPatterns
  rw [if_neg (by omega)]
  refine List.mem_filterMap.2 ⟨(name, (condCount name recent : ℚ) / recent.length),
    hmemseq, ?_⟩
  rw [if_pos hrate]

/-- Witness for C8 at a 3-day log with headache every day: rate 1 > 0.6,
confidence `high`. -/
theorem C8_frequency_heuristic_amended_witness :
    ({ symptom := "headache"
       probability := (condCount ("headache") (recentSymptoms exHeadache3) : ℚ) /
         (recentSymptoms exHeadache3).length
       confidence :=
         if (4/5 : ℚ) < (condCount ("headache") (recentSymptoms exHeadache3) : ℚ) /
             (recentSymptoms exHeadache3).length
         then ("high") else ("medium") } : PredictedSymptom) ∈
      candidatePredictions (recentSymptoms exHeadache3) 3 := by
  have hc : condCount ("headache") (recentSymptoms exHeadache3) = 3 := by decide
  have hl : (recentSymptoms exHeadache3).length = 3 := by decide
  refine C8_frequency_heuristic_amended exHeadache3 3 ("headache")
    (by decide) (by decide) ?_
  rw [hc, hl]
  norm_num

/-- C8 as frozen is false: on a 2-entry log with headache both days the
headache rate is 1 > 0.6, yet the candidate prediction list (and the final
prediction list) is empty, because `_predict_by_patterns` requires at least
3 recent entries. -/
theorem C8_counterexample_two_entries :
    (3/5 : ℚ) < (condCount ("headache") (recentSymptoms exHeadache2) : ℚ) /
        (recentSymptoms exHeadache2).length ∧
    candidatePredictions (recentSymptoms exHeadache2) 2 = [] ∧
    (predictTomorrowSymptoms exHeadache2 2).predicted_symptoms = [] := by
  refine ⟨?_, ?_, ?_⟩
  · have hc : condCount ("headache") (recentSymptoms exHeadache2) = 2 := by decide
    have hl : (recentSymptoms exHeadache2).length = 2 := by decide
    rw [hc, hl]
    norm_num
  · decide
  · decide

/-! Lemmas about suggestion deduplication (claim C9). -/

theorem dedupLoop_cons_eq (seen : List (String × String)) (s : Suggestion)
    (l : List Suggestion) :
    dedupLoop seen (s :: l) =
      (if (s.title, s.category) ∈ seen then dedupLoop seen l
       else s :: dedupLoop ((s.title, s.category) :: seen) l) := rfl

theorem dedupLoop_sublist :
    ∀ (l : List Suggestion) (seen : List (String × String)),
      (dedupLoop seen l).Sublist l := by
  intro l
  induction l with
  | nil => intro seen; exact List.Sublist.refl []
  | cons s l ih =>
    intro seen
    rw [dedupLoop_cons_eq]
    by_cases hs : (s.title, s.category) ∈ seen
    · rw [if_pos hs]
      exact (ih seen).cons s
    · rw [if_neg hs]
      exact (ih _).cons₂ s

theorem dedupLoop_keys :
    ∀ (l : List Suggestion) (seen : List (String × String)),
      ((dedupLoop seen l).map sugKey).Nodup ∧
      ∀ s ∈ dedupLoop seen l, sugKey s ∉ seen := by
  intro l
  induction l with
  | nil => intro seen; exact ⟨List.nodup_nil, by intro s hs; simp [dedupLoop] at hs⟩
  | cons s l ih =>
    intro seen
    rw [dedupLoop_cons_eq]
    by_cases hs : (s.title, s.category) ∈ seen
    · rw [if_pos hs]
      exact ih seen
    · rw [if_neg hs]
      obtain ⟨ihn, ihs⟩ := ih ((s.title, s.category) :: seen)
      refine ⟨?_, ?_⟩
      · rw [List.map_cons, List.nodup_cons]
        refine ⟨?_, ihn⟩
        intro hmem
        obtain ⟨x, hx, hxk⟩ := List.mem_map.1 hmem
        refine ihs x hx ?_
        rw [hxk]
        exact List.mem_cons_self _ _
      · intro x hx
        rcases List.mem_cons.1 hx with rfl | hx
        · exact hs
        · exact fun hc => (ihs x hx) (List.mem_cons_of_mem _ hc)

theorem dedupLoop_length :
    ∀ (l : List Suggestion) (seen : List (String × String)),
      (dedupLoop seen l).length =
        ((l.map sugKey).toFinset \ seen.toFinset).card := by
  intro l
  induction l with
  | nil => intro seen; simp [dedupLoop]
  | cons s l ih =>
    intro seen
    rw [dedupLoop_cons_eq]
    by_cases hs : (s.title, s.category) ∈ seen
    · have hmem : sugKey s ∈ seen.toFinset := List.mem_toFinset.2 hs
      rw [if_pos hs, ih seen, List.map_cons, List.toFinset_cons]
      rw [Finset.insert_sdiff_of_mem _ hmem]
    · have hmem : sugKey s ∉ seen.toFinset := fun hc => hs (List.mem_toFinset.1 hc)
      rw [if_neg hs, List.length_cons, ih ((s.title, s.category) :: seen),
        List.map_cons, List.toFinset_cons, List.toFinset_cons]
      rw [Finset.insert_sdiff_of_not_mem _ hmem, Finset.sdiff_insert]
      by_cases hk : (s.title, s.category) ∈ (l.map sugKey).toFinset \ seen.toFinset
      · have hk2 : sugKey s ∈ (l.map sugKey).toFinset \ seen.toFinset := hk
        rw [Finset.insert_eq_self.2 hk2]
        have h2 := Finset.card_erase_add_one hk
        omega
      · have hk2 : sugKey s ∉ (l.map sugKey).toFinset \ seen.toFinset := hk
        rw [Finset.card_insert_of_not_mem hk2,
          Finset.erase_eq_of_not_mem hk]

/-- C9: For every input, the suggestion list returned by
`generate_suggestions` has pairwise-distinct `(title, category)` keys, is
ordered by ascending priority rank (so priorities are non-increasing along
the list), and has length at most 10; when the assembled suggestions contain
more than 10 distinct `(title, category)` keys, the length is exactly 10. -/
theorem C9_suggestions_dedup_sorted_capped (today : ℤ)
    (cs : Option SymptomEntry) (preds : List PredictedSymptom) :
    (((generateSuggestions today cs preds).suggestions.map sugKey).Nodup ∧
     (generateSuggestions today cs preds).suggestions.Pairwise prioLE ∧
     (generateSuggestions today cs preds).suggestions.length ≤ 10) ∧
    (10 < ((collectedSuggestions cs preds).map sugKey).toFinset.card →
      (generateSuggestions today cs preds).suggestions.length = 10) := by
  have hout : (generateSuggestions today cs preds).suggestions =
      (dedupLoop [] ((collectedSuggestions cs preds).insertionSort prioLE)).take 10
    := rfl
  have hsorted : ((collectedSuggestions cs preds).insertionSort prioLE).Pairwise
      prioLE :=
    List.sorted_insertionSort prioLE (collectedSuggestions cs preds)
  have hsub : ((generateSuggestions today cs preds).suggestions).Sublist
      ((collectedSuggestions cs preds).insertionSort prioLE) := by
    rw [hout]
    exact (List.take_sublist _ _).trans (dedupLoop_sublist _ [])
  refine ⟨⟨?_, ?_, ?_⟩, ?_⟩
  · rw [hout, List.map_take]
    refine List.Nodup.sublist (List.take_sublist _ _) ?_
    exact (dedupLoop_keys ((collectedSuggestions cs preds).insertionSort prioLE) []).1
  · exact List.Pairwise.sublist hsub hsorted
  · rw [hout]
    exact List.length_take_le _ _
  · intro hcard
    have hlen : (dedupLoop []
        ((collectedSuggestions cs preds).insertionSort prioLE)).length =
        (((collectedSuggestions cs preds).insertionSort prioLE).map
          sugKey).toFinset.card := by
      rw [dedupLoop_length]
      simp
    have hperm : (((collectedSuggestions cs preds).insertionSort prioLE).map
        sugKey).toFinset = ((collectedSuggestions cs preds).map sugKey).toFinset :=
      List.toFinset_eq_of_perm _ _
        ((List.perm_insertionSort prioLE _).map sugKey)
    rw [hperm] at hlen
    rw [hout, List.length_take]
    rw [min_eq_left (by omega)]

/-- Witness for the cap of C9: with all six symptom conditions firing, 22 distinct
suggestions are assembled and exactly 10 survive. -/
theorem C9_suggestions_dedup_sorted_capped_witness :
    (generateSuggestions 0 (some exAllConditions) []).suggestions.length = 10 :=
  (C9_suggestions_dedup_sorted_capped 0 (some exAllConditions) []).2 (by decide)

end CycleApp
